import Mathlib

set_option maxHeartbeats 1000000

/-!
Shallow embedding of `src/main.py` of the SparksBot repository: a Telegram
intake bot that collects a question, a description and an optional image from
a user across several messages and forwards the compiled submission to a fixed
admin recipient.

The two module-level Python dictionaries `user_states` and `user_data` are
modelled as functions `Nat → Option _`.  Outbound transport calls
(`bot.send_message`, `bot.send_photo`, `requests.get`) may fail; their
outcomes are supplied by an explicit `Transport` environment.  A Python
exception escaping a handler is modelled by the `ok := false` flag of
`HResult`; mutations performed before the raising call are kept, mutations
after it are skipped, exactly as in-place dictionary mutation behaves.
-/

namespace SparksBot

/-- `STATE_QUESTION = 1` from `main.py`. -/
def STATE_QUESTION : Nat := 1

/-- `STATE_DESCRIPTION = 2` from `main.py`. -/
def STATE_DESCRIPTION : Nat := 2

/-- `STATE_IMAGE = 3` from `main.py`. -/
def STATE_IMAGE : Nat := 3

/-- Pointwise update of a dictionary, modelling `dict[k] = v` (with
`v = none` modelling `del dict[k]`, which Python guards with `if k in dict`). -/
def upd {α : Type} (f : Nat → Option α) (k : Nat) (v : Option α) : Nat → Option α :=
  fun x => if x = k then v else f x

/-- The relevant fields of a Telegram user object. -/
structure TgUser where
  id : Nat
  first_name : String
  last_name : Option String
  username : Option String
deriving DecidableEq

/-- The relevant fields of an inbound Telegram message: its chat id and its
sender. -/
structure Msg where
  chatId : Nat
  from_user : TgUser
deriving DecidableEq

/-- The per-user entry of the `user_data` dictionary: the Python dict with the
optional keys `question`, `description`, `additional_info`, `image_url`,
`image_id`; a key being absent is modelled by `none`. -/
structure UserData where
  question : Option String
  description : Option String
  additional_info : Option String
  image_url : Option String
  image_id : Option String
deriving DecidableEq

/-- The empty dict `{}` that `send_spark` stores in `user_data`. -/
def emptyData : UserData := ⟨none, none, none, none, none⟩

/-- The two module-level dictionaries of `main.py`. -/
structure Store where
  user_states : Nat → Option Nat
  user_data : Nat → Option UserData

/-- Both dictionaries with the entry for `u` removed (the unconditional
cleanup at the end of `finalize_question`, and the effect of `cancel`). -/
def clearUser (st : Store) (u : Nat) : Store :=
  ⟨upd st.user_states u none, upd st.user_data u none⟩

/-- An outbound transport call that was successfully dispatched. -/
inductive Send where
  | text (chatId : Nat) (body : String)
  | photoRef (chatId : Nat) (fileId : String) (caption : String)
  | photoBytes (chatId : Nat) (caption : String)
deriving DecidableEq

/-- `true` for a photo dispatch, `false` for a plain text dispatch. -/
def isPhotoSend : Send → Bool
  | .text _ _ => false
  | .photoRef _ _ _ => true
  | .photoBytes _ _ => true

/-- Result of running one handler: the outbound calls that were dispatched,
the final contents of the two dictionaries, and whether the handler returned
normally (`ok = true`) or a Python exception escaped it (`ok = false`). -/
structure HResult where
  sends : List Send
  store : Store
  ok : Bool

/-- Outcomes of the external collaborators for one handler run.
`fetch` is the result of `requests.get` (`none` = the call raises,
`some c` = it returns status code `c`); each `Bool` field tells whether the
corresponding outbound bot call succeeds (`false` = it raises).
`sendTextAdminOk` governs the admin `bot.send_message` calls that occur inside
the `try` block or in the no-image branch; `sendTextAdmin2Ok` governs the
`bot.send_message` retry inside the `except` handler; `sendTextUserOk` governs
every `bot.send_message` directed at the submitting user. -/
structure Transport where
  fetch : Option Nat
  sendPhotoRefOk : Bool
  sendPhotoBytesOk : Bool
  sendTextAdminOk : Bool
  sendTextAdmin2Ok : Bool
  sendTextUserOk : Bool
deriving DecidableEq

/-- The welcome message of the `/start` handler. -/
def welcomeText (first_name : String) : String :=
  "Hey " ++ first_name ++ ", welcome to Trepa Bot! ⚡️\n\n" ++
  "Trepa is the world\x27s first sentiment prediction platform powered by *prediction pools*, not markets.\n\n " ++
  "Got a question burning in your head? Use /sendspark to submit a *spark* — our experts will decode the collective signal behind it.\n\n" ++
  "Let’s make your curiosity count. ✨"

/-- The `/help` reply text. -/
def helpText : String :=
  "🛠 *Need help?* Here\x27s how to use Trepa Bot:\n\n" ++
  "• /start – Introduction to Trepa and what this bot can do\n" ++
  "• /sendspark – Submit a *spark* (your thought-provoking question)\n" ++
  "• /cancel – Stop the current spark submission\n" ++
  "• /help – See this guide again\n\n" ++
  "*What’s a spark?*\n" ++
  "It’s a signal you send to Trepa’s prediction pool — a hypothesis, a trend, a social whisper. " ++
  "We help distill sentiment from it and surface insights before they go mainstream.\n\n" ++
  "When you use /sendspark, I’ll ask:\n" ++
  "1. Your question\n" ++
  "2. Some background/context\n" ++
  "3. (Optional) An image or link that captures the vibe\n\n" ++
  "Let’s turn collective sentiment into superpowers. 🔮"

/-- The prompt sent by `/sendspark`. -/
def sparkStartText : String :=
  "Let\x27s ignite a spark. 🔥\n\n" ++
  "What’s your question or hypothesis?\n\n" ++
  "Note: Trepa isn’t a fortune-teller. Avoid asking us to *predict the future*. " ++
  "Instead, focus on ideas, trends, or moments where public sentiment might be shifting."

/-- The `/cancel` reply text. -/
def cancelText : String :=
  "No worries — your spark submission has been cancelled. 🔕\n\n" ++
  "You can always light another one with /sendspark whenever inspiration strikes."

/-- The reply sent by the catch-all text handler when the user has no session. -/
def noSessionText : String :=
  "To submit a question, please use the /sendspark command."

/-- Prompt for the description step. -/
def askContextText : String :=
  "Great question! 📌\n\n" ++
  "Now give us a bit more context — where’s this coming from? A tweet? A trend? A gut feeling?\n" ++
  "Tell us what inspired the spark."

/-- Prompt for the optional image step. -/
def askImageText : String :=
  "Thanks for the background! 🧠\n\n" ++
  "Do you have an image or screenshot that captures the essence of this spark?\n\n" ++
  "Drop the image link here (or upload a photo). If not, just type \x27no\x27."

/-- The reply sent by the photo handler when the user has no session. -/
def photoNoSessionText : String :=
  "To submit a question with an image, please use the /sendspark command first."

/-- The reply sent by the photo handler when a photo arrives in a state other
than `STATE_IMAGE`. -/
def notExpectingText : String :=
  "I wasn\x27t expecting an image at this point. Please follow the prompts."

/-- The confirmation sent to the submitting user at the end of
`finalize_question`. -/
def finalizeConfirmText : String :=
  "🧠 Thanks! Your question has been submitted to Trepa HQ.\n\nWe’ll use it to spark community sentiment. " ++
  "If it fits, it may show up on Trepa soon for others to weigh in.\n\nWant to ask another one? Hit /sendspark anytime!"

/-- The Python f-string fragment
`{' ' + user.last_name if user.last_name else ''}`: an empty or missing last
name contributes nothing, otherwise a space plus the last name. -/
def lastNamePart (u : TgUser) : String :=
  match u.last_name with
  | some s => if s = "" then "" else " " ++ s
  | none => ""

/-- The Python f-string fragment
`{user.username if user.username else 'no username'}`. -/
def usernamePart (u : TgUser) : String :=
  match u.username with
  | some s => if s = "" then "no username" else s
  | none => "no username"

/-- Python `str.lower` applied to the incoming text (`message.text.lower()`),
folding every character with `Char.toLower`. -/
def pyLower (s : String) : String := ⟨s.data.map Char.toLower⟩

/-- Python `str.startswith`: `p` is a literal prefix of `s`. -/
def pyStartsWith (s p : String) : Bool := List.isPrefixOf p.data s.data

/-- Steps 3 and 4 of `finalize_question`: send the fixed confirmation to the
submitting user, then delete the user's entries from both dictionaries.  If
the confirmation send raises, the deletes are skipped. -/
def confirmAndCleanup (env : Transport) (st : Store) (msg : Msg) (user_id : Nat)
    (sent : List Send) : HResult :=
  if env.sendTextUserOk then
    ⟨sent ++ [Send.text msg.chatId finalizeConfirmText], clearUser st user_id, true⟩
  else
    ⟨sent, st, false⟩

/-- `finalize_question(message, user_id, has_image, has_additional_info)` from
`main.py`: build the admin notification, resolve the image (photo reference,
URL fetch with text fallback, or none), dispatch it to `admin`, then confirm
to the user and clear the session.  Reading `user_data[user_id]` raises
`KeyError` when the key is absent. -/
def finalize_question (env : Transport) (admin : Nat) (st : Store) (msg : Msg)
    (user_id : Nat) (has_image : Bool) (has_additional_info : Bool) : HResult :=
  match st.user_data user_id with
  | none => ⟨[], st, false⟩
  | some d =>
    let user := msg.from_user
    let question_text := d.question.getD "No question provided"
    let description_text := d.description.getD "No description provided"
    let admin_message :=
      "🌟 NEW SPARK RECEIVED 🌟\n\n" ++
      "User: " ++ user.first_name ++ " " ++ lastNamePart user ++ " " ++
      "(@" ++ usernamePart user ++ ")\n" ++
      "User ID: " ++ toString user.id ++ "\n\n" ++
      "Question: " ++ question_text ++ "\n\n" ++
      "Description/Source: " ++ description_text
    let admin_message :=
      match has_additional_info, d.additional_info with
      | true, some info => admin_message ++ "\n\nAdditional Info: " ++ info
      | _, _ => admin_message
    match d.image_id with
    | some fid =>
      if env.sendPhotoRefOk then
        confirmAndCleanup env st msg user_id [Send.photoRef admin fid admin_message]
      else ⟨[], st, false⟩
    | none =>
      match d.image_url with
      | some url =>
        let admin_message := admin_message ++ "\n\nImage URL: " ++ url
        match env.fetch with
        | some code =>
          if code = 200 then
            if env.sendPhotoBytesOk then
              confirmAndCleanup env st msg user_id [Send.photoBytes admin admin_message]
            else if env.sendTextAdmin2Ok then
              confirmAndCleanup env st msg user_id [Send.text admin admin_message]
            else ⟨[], st, false⟩
          else
            if env.sendTextAdminOk then
              confirmAndCleanup env st msg user_id [Send.text admin admin_message]
            else if env.sendTextAdmin2Ok then
              confirmAndCleanup env st msg user_id [Send.text admin admin_message]
            else ⟨[], st, false⟩
        | none =>
          if env.sendTextAdmin2Ok then
            confirmAndCleanup env st msg user_id [Send.text admin admin_message]
          else ⟨[], st, false⟩
      | none =>
        if env.sendTextAdminOk then
          confirmAndCleanup env st msg user_id [Send.text admin admin_message]
        else ⟨[], st, false⟩

/-- The `/start` handler: sends the welcome message, never touches the
dictionaries. -/
def start (env : Transport) (st : Store) (msg : Msg) : HResult :=
  ⟨if env.sendTextUserOk then [Send.text msg.chatId (welcomeText msg.from_user.first_name)] else [],
   st, env.sendTextUserOk⟩

/-- The `/help` handler: sends the help text, never touches the
dictionaries. -/
def help_command (env : Transport) (st : Store) (msg : Msg) : HResult :=
  ⟨if env.sendTextUserOk then [Send.text msg.chatId helpText] else [],
   st, env.sendTextUserOk⟩

/-- The `/sendspark` handler: `user_states[user_id] = STATE_QUESTION;
user_data[user_id] = {}` then the prompt. -/
def send_spark (env : Transport) (st : Store) (msg : Msg) : HResult :=
  let user_id := msg.from_user.id
  let st1 : Store :=
    ⟨upd st.user_states user_id (some STATE_QUESTION),
     upd st.user_data user_id (some emptyData)⟩
  ⟨if env.sendTextUserOk then [Send.text msg.chatId sparkStartText] else [],
   st1, env.sendTextUserOk⟩

/-- The `/cancel` handler: deletes both dictionary entries if present, then
replies. -/
def cancel (env : Transport) (st : Store) (msg : Msg) : HResult :=
  let user_id := msg.from_user.id
  ⟨if env.sendTextUserOk then [Send.text msg.chatId cancelText] else [],
   clearUser st user_id, env.sendTextUserOk⟩

/-- `handle_messages(message)` from `main.py`: the catch-all text handler,
dispatching on the user's state. -/
def handle_messages (env : Transport) (admin : Nat) (st : Store) (msg : Msg)
    (body : String) : HResult :=
  let user_id := msg.from_user.id
  match st.user_states user_id with
  | none =>
    ⟨if env.sendTextUserOk then [Send.text msg.chatId noSessionText] else [],
     st, env.sendTextUserOk⟩
  | some state =>
    if state = STATE_QUESTION then
      match st.user_data user_id with
      | none => ⟨[], st, false⟩
      | some d =>
        let st1 : Store :=
          ⟨upd st.user_states user_id (some STATE_DESCRIPTION),
           upd st.user_data user_id (some { d with question := some body })⟩
        ⟨if env.sendTextUserOk then [Send.text msg.chatId askContextText] else [],
         st1, env.sendTextUserOk⟩
    else if state = STATE_DESCRIPTION then
      match st.user_data user_id with
      | none => ⟨[], st, false⟩
      | some d =>
        let st1 : Store :=
          ⟨upd st.user_states user_id (some STATE_IMAGE),
           upd st.user_data user_id (some { d with description := some body })⟩
        ⟨if env.sendTextUserOk then [Send.text msg.chatId askImageText] else [],
         st1, env.sendTextUserOk⟩
    else if state = STATE_IMAGE then
      let text := pyLower body
      if (["no", "none", "n"] : List String).contains text then
        finalize_question env admin st msg user_id false false
      else if pyStartsWith text "http://" || pyStartsWith text "https://" then
        match st.user_data user_id with
        | none => ⟨[], st, false⟩
        | some d =>
          finalize_question env admin
            ⟨st.user_states, upd st.user_data user_id (some { d with image_url := some body })⟩
            msg user_id true false
      else
        match st.user_data user_id with
        | none => ⟨[], st, false⟩
        | some d =>
          finalize_question env admin
            ⟨st.user_states, upd st.user_data user_id (some { d with additional_info := some body })⟩
            msg user_id false true
    else
      ⟨[], st, true⟩

/-- `handle_photo(message)` from `main.py`. -/
def handle_photo (env : Transport) (admin : Nat) (st : Store) (msg : Msg)
    (photo_file_id : String) : HResult :=
  let user_id := msg.from_user.id
  match st.user_states user_id with
  | none =>
    ⟨if env.sendTextUserOk then [Send.text msg.chatId photoNoSessionText] else [],
     st, env.sendTextUserOk⟩
  | some state =>
    if state = STATE_IMAGE then
      match st.user_data user_id with
      | none => ⟨[], st, false⟩
      | some d =>
        finalize_question env admin
          ⟨st.user_states, upd st.user_data user_id (some { d with image_id := some photo_file_id })⟩
          msg user_id true false
    else
      ⟨if env.sendTextUserOk then [Send.text msg.chatId notExpectingText] else [],
       st, env.sendTextUserOk⟩

/-- One inbound event, as routed by the telebot dispatcher: commands go to the
command handlers, plain text to `handle_messages`, photos to `handle_photo`. -/
inductive Event where
  | cmdStart
  | cmdHelp
  | cmdSendspark
  | cmdCancel
  | textMsg (body : String)
  | photoMsg (fileId : String)
deriving DecidableEq

/-- The dispatcher: one inbound event processed by the matching handler. -/
def step (env : Transport) (admin : Nat) (st : Store) (msg : Msg) : Event → HResult
  | .cmdStart => start env st msg
  | .cmdHelp => help_command env st msg
  | .cmdSendspark => send_spark env st msg
  | .cmdCancel => cancel env st msg
  | .textMsg body => handle_messages env admin st msg body
  | .photoMsg fid => handle_photo env admin st msg fid

/-- The dictionaries at process start: both empty. -/
def initStore : Store := ⟨fun _ => none, fun _ => none⟩

/-- Stores reachable from process start by any sequence of inbound events,
with any transport outcomes. -/
inductive Reachable : Store → Prop where
  | init : Reachable initStore
  | next : ∀ {st : Store}, Reachable st →
      ∀ (env : Transport) (admin : Nat) (msg : Msg) (e : Event),
        Reachable (step env admin st msg e).store

/-- The key sets of the two dictionaries coincide. -/
def SyncInv (st : Store) : Prop :=
  ∀ u, (st.user_states u).isSome = (st.user_data u).isSome

/-- Whenever a user is in `STATE_DESCRIPTION` their question is already
stored, and whenever they are in `STATE_IMAGE` both question and description
are stored. -/
def QuestionBeforeDescription (st : Store) : Prop :=
  ∀ u,
    (st.user_states u = some STATE_DESCRIPTION →
      ∃ d, st.user_data u = some d ∧ d.question.isSome = true) ∧
    (st.user_states u = some STATE_IMAGE →
      ∃ d, st.user_data u = some d ∧ d.question.isSome = true ∧ d.description.isSome = true)

/-! ## Concrete instances used to evaluate the definitions -/

/-- A transport where every outbound call succeeds and the fetch returns 200. -/
def envAll : Transport := ⟨some 200, true, true, true, true, true⟩

/-- A transport where `bot.send_photo` with a file id raises and everything
else succeeds. -/
def envPhotoRefFail : Transport := ⟨some 200, false, true, true, true, true⟩

/-- A transport where `requests.get` raises and every send succeeds. -/
def envFetchFail : Transport := ⟨none, true, true, true, true, true⟩

/-- A transport where `requests.get` raises and the fallback admin text send
inside the `except` handler also raises. -/
def envFetchAndFallbackFail : Transport := ⟨none, true, true, true, false, true⟩

/-- A demo Telegram user with id 5. -/
def user5 : TgUser := ⟨5, "A", none, none⟩

/-- A demo message from `user5` in chat 7. -/
def msg5 : Msg := ⟨7, user5⟩

/-- Session data holding a question, a description and a photo reference. -/
def dataPhoto : UserData := ⟨some "q", some "d", none, none, some "F"⟩

/-- Session data holding a question, a description and an image URL. -/
def dataUrl : UserData := ⟨some "q", some "d", none, some "http://x", none⟩

/-- Session data holding only a question and a description. -/
def dataQD : UserData := ⟨some "q", some "d", none, none, none⟩

/-- A store where user 5 is in `STATE_IMAGE` with `dataPhoto`. -/
def stPhoto : Store :=
  ⟨upd initStore.user_states 5 (some STATE_IMAGE),
   upd initStore.user_data 5 (some dataPhoto)⟩

/-- A store where user 5 is in `STATE_IMAGE` with `dataUrl`. -/
def stUrl : Store :=
  ⟨upd initStore.user_states 5 (some STATE_IMAGE),
   upd initStore.user_data 5 (some dataUrl)⟩

/-- A store where user 5 is in `STATE_IMAGE` with `dataQD`. -/
def stQD : Store :=
  ⟨upd initStore.user_states 5 (some STATE_IMAGE),
   upd initStore.user_data 5 (some dataQD)⟩

/-- A store where user 5 is in `STATE_QUESTION` with empty data. -/
def stQ : Store :=
  ⟨upd initStore.user_states 5 (some STATE_QUESTION),
   upd initStore.user_data 5 (some emptyData)⟩

/-- The store after `/sendspark`, `"q"`, `"d"` from user 5: user 5 is in
`STATE_IMAGE` with question and description collected. -/
def demoStore3 : Store :=
  (step envAll 0
    (step envAll 0
      (step envAll 0 initStore msg5 .cmdSendspark).store
      msg5 (.textMsg "q")).store
    msg5 (.textMsg "d")).store

end SparksBot

namespace SparksBot

/-! ## Helper lemmas -/

@[simp] theorem upd_self {α : Type} (f : Nat → Option α) (k : Nat) (v : Option α) :
    upd f k v k = v := by
  simp [upd]

theorem upd_other {α : Type} (f : Nat → Option α) (k : Nat) (v : Option α)
    (x : Nat) (h : ¬ x = k) : upd f k v x = f x := by
  simp [upd, h]

/-- `confirmAndCleanup` either fails leaving the store alone, or returns the
dispatched sends plus the confirmation, with both entries cleared. -/
theorem confirmAndCleanup_cases (env : Transport) (st : Store) (msg : Msg)
    (u : Nat) (sent : List Send) :
    ((confirmAndCleanup env st msg u sent).ok = false ∧
      (confirmAndCleanup env st msg u sent).store = st) ∨
    confirmAndCleanup env st msg u sent =
      ⟨sent ++ [Send.text msg.chatId finalizeConfirmText], clearUser st u, true⟩ := by
  unfold confirmAndCleanup
  split
  · exact Or.inr rfl
  · exact Or.inl ⟨rfl, rfl⟩

/-- Every run of `finalize_question` either raises with the store unchanged,
or completes: it then dispatched some sends followed by the user confirmation
and cleared both dictionary entries of `user_id`. -/
theorem finalize_question_cases (env : Transport) (admin : Nat) (st : Store)
    (msg : Msg) (user_id : Nat) (hi hai : Bool) :
    ((finalize_question env admin st msg user_id hi hai).ok = false ∧
      (finalize_question env admin st msg user_id hi hai).store = st) ∨
    ∃ sent, finalize_question env admin st msg user_id hi hai =
      ⟨sent ++ [Send.text msg.chatId finalizeConfirmText], clearUser st user_id, true⟩ := by
  unfold finalize_question
  dsimp only
  repeat' split
  all_goals
    first
      | exact Or.inl ⟨rfl, rfl⟩
      | (rcases confirmAndCleanup_cases env st msg user_id _ with h | h
         · exact Or.inl h
         · exact Or.inr ⟨_, h⟩)

/-- The store after `finalize_question` is either the input store or the input
store with both entries of `user_id` removed. -/
theorem finalize_question_store (env : Transport) (admin : Nat) (st : Store)
    (msg : Msg) (user_id : Nat) (hi hai : Bool) :
    (finalize_question env admin st msg user_id hi hai).store = st ∨
    (finalize_question env admin st msg user_id hi hai).store = clearUser st user_id := by
  rcases finalize_question_cases env admin st msg user_id hi hai with ⟨_, h⟩ | ⟨sent, h⟩
  · exact Or.inl h
  · rw [h]
    exact Or.inr rfl

/-! ## Preservation of the key-synchronisation invariant -/

theorem sync_upd_both (st : Store) (u : Nat) (s : Nat) (d : UserData)
    (h : SyncInv st) :
    SyncInv ⟨upd st.user_states u (some s), upd st.user_data u (some d)⟩ := by
  intro x
  by_cases hx : x = u
  · subst hx
    simp [upd]
  · simp [upd, hx]
    exact h x

theorem sync_clear (st : Store) (u : Nat) (h : SyncInv st) :
    SyncInv (clearUser st u) := by
  intro x
  by_cases hx : x = u
  · subst hx
    simp [clearUser, upd]
  · simp [clearUser, upd, hx]
    exact h x

theorem sync_upd_data (st : Store) (u : Nat) (d : UserData)
    (h : SyncInv st) (hs : (st.user_states u).isSome = true) :
    SyncInv ⟨st.user_states, upd st.user_data u (some d)⟩ := by
  intro x
  by_cases hx : x = u
  · subst hx
    simp [upd, hs]
  · simp [upd, hx]
    exact h x

theorem finalize_question_sync (env : Transport) (admin : Nat) (st : Store)
    (msg : Msg) (user_id : Nat) (hi hai : Bool) (h : SyncInv st) :
    SyncInv (finalize_question env admin st msg user_id hi hai).store := by
  rcases finalize_question_store env admin st msg user_id hi hai with hc | hc <;> rw [hc]
  · exact h
  · exact sync_clear st user_id h

theorem handle_messages_sync (env : Transport) (admin : Nat) (st : Store)
    (msg : Msg) (body : String) (h : SyncInv st) :
    SyncInv (handle_messages env admin st msg body).store := by
  unfold handle_messages
  dsimp only
  cases hs : st.user_states msg.from_user.id with
  | none => exact h
  | some s =>
    dsimp only
    repeat' split
    all_goals try dsimp only
    all_goals
      first
        | exact h
        | exact sync_upd_both _ _ _ _ h
        | exact finalize_question_sync _ _ _ _ _ _ _ h
        | (apply finalize_question_sync
           apply sync_upd_data _ _ _ h
           simp [hs])

theorem handle_photo_sync (env : Transport) (admin : Nat) (st : Store)
    (msg : Msg) (fid : String) (h : SyncInv st) :
    SyncInv (handle_photo env admin st msg fid).store := by
  unfold handle_photo
  dsimp only
  cases hs : st.user_states msg.from_user.id with
  | none => exact h
  | some s =>
    dsimp only
    repeat' split
    all_goals try dsimp only
    all_goals
      first
        | exact h
        | (apply finalize_question_sync
           apply sync_upd_data _ _ _ h
           simp [hs])

/-! ## Preservation of the question-before-description invariant -/

theorem qbd_clear (st : Store) (u : Nat) (h : QuestionBeforeDescription st) :
    QuestionBeforeDescription (clearUser st u) := by
  intro x
  by_cases hx : x = u
  · subst hx
    constructor <;> intro hcon <;> simp [clearUser, upd] at hcon
  · constructor <;> intro hcon
    · rw [show (clearUser st u).user_states x = st.user_states x from
        upd_other _ _ _ _ hx] at hcon
      obtain ⟨d0, hd0, hq⟩ := (h x).1 hcon
      exact ⟨d0, by rw [show (clearUser st u).user_data x = st.user_data x from
        upd_other _ _ _ _ hx]; exact hd0, hq⟩
    · rw [show (clearUser st u).user_states x = st.user_states x from
        upd_other _ _ _ _ hx] at hcon
      obtain ⟨d0, hd0, hq, hdd⟩ := (h x).2 hcon
      exact ⟨d0, by rw [show (clearUser st u).user_data x = st.user_data x from
        upd_other _ _ _ _ hx]; exact hd0, hq, hdd⟩

theorem finalize_question_qbd (env : Transport) (admin : Nat) (st : Store)
    (msg : Msg) (user_id : Nat) (hi hai : Bool) (h : QuestionBeforeDescription st) :
    QuestionBeforeDescription (finalize_question env admin st msg user_id hi hai).store := by
  rcases finalize_question_store env admin st msg user_id hi hai with hc | hc <;> rw [hc]
  · exact h
  · exact qbd_clear st user_id h

theorem qbd_upd_both (st : Store) (u : Nat) (s : Nat) (dnew : UserData)
    (h : QuestionBeforeDescription st)
    (h2 : s = STATE_DESCRIPTION → dnew.question.isSome = true)
    (h3 : s = STATE_IMAGE → dnew.question.isSome = true ∧ dnew.description.isSome = true) :
    QuestionBeforeDescription
      ⟨upd st.user_states u (some s), upd st.user_data u (some dnew)⟩ := by
  intro x
  dsimp only
  by_cases hx : x = u
  · subst hx
    constructor <;> intro hcon <;> rw [upd_self] at hcon
    · exact ⟨dnew, by rw [upd_self], h2 (Option.some.inj hcon)⟩
    · rcases h3 (Option.some.inj hcon) with ⟨hq, hd⟩
      exact ⟨dnew, by rw [upd_self], hq, hd⟩
  · constructor <;> intro hcon <;> rw [upd_other _ _ _ _ hx] at hcon
    · obtain ⟨d0, hd0, hq⟩ := (h x).1 hcon
      exact ⟨d0, by rw [upd_other _ _ _ _ hx]; exact hd0, hq⟩
    · obtain ⟨d0, hd0, hq, hdd⟩ := (h x).2 hcon
      exact ⟨d0, by rw [upd_other _ _ _ _ hx]; exact hd0, hq, hdd⟩

theorem qbd_upd_data (st : Store) (u : Nat) (dnew : UserData)
    (h : QuestionBeforeDescription st)
    (h2 : st.user_states u = some STATE_DESCRIPTION → dnew.question.isSome = true)
    (h3 : st.user_states u = some STATE_IMAGE →
      dnew.question.isSome = true ∧ dnew.description.isSome = true) :
    QuestionBeforeDescription ⟨st.user_states, upd st.user_data u (some dnew)⟩ := by
  intro x
  dsimp only
  by_cases hx : x = u
  · subst hx
    constructor <;> intro hcon
    · exact ⟨dnew, by rw [upd_self], h2 hcon⟩
    · rcases h3 hcon with ⟨hq, hd⟩
      exact ⟨dnew, by rw [upd_self], hq, hd⟩
  · constructor <;> intro hcon
    · obtain ⟨d0, hd0, hq⟩ := (h x).1 hcon
      exact ⟨d0, by rw [upd_other _ _ _ _ hx]; exact hd0, hq⟩
    · obtain ⟨d0, hd0, hq, hdd⟩ := (h x).2 hcon
      exact ⟨d0, by rw [upd_other _ _ _ _ hx]; exact hd0, hq, hdd⟩

theorem handle_messages_qbd (env : Transport) (admin : Nat) (st : Store)
    (msg : Msg) (body : String) (h : QuestionBeforeDescription st) :
    QuestionBeforeDescription (handle_messages env admin st msg body).store := by
  unfold handle_messages
  dsimp only
  cases hs : st.user_states msg.from_user.id with
  | none => exact h
  | some s =>
    dsimp only
    by_cases h1 : s = STATE_QUESTION
    · subst h1
      rw [if_pos rfl]
      cases hd : st.user_data msg.from_user.id with
      | none => exact h
      | some d =>
        dsimp only
        refine qbd_upd_both st msg.from_user.id STATE_DESCRIPTION _ h ?_ ?_
        · intro _
          rfl
        · intro hcon
          exact absurd hcon (by decide)
    · by_cases h2 : s = STATE_DESCRIPTION
      · subst h2
        rw [if_neg h1, if_pos rfl]
        cases hd : st.user_data msg.from_user.id with
        | none => exact h
        | some d =>
          dsimp only
          refine qbd_upd_both st msg.from_user.id STATE_IMAGE _ h ?_ ?_
          · intro hcon
            exact absurd hcon (by decide)
          · intro _
            refine ⟨?_, rfl⟩
            obtain ⟨d0, hd0, hq⟩ := (h msg.from_user.id).1 hs
            rw [hd] at hd0
            obtain rfl := Option.some.inj hd0
            exact hq
      · by_cases h3 : s = STATE_IMAGE
        · subst h3
          rw [if_neg h1, if_neg h2, if_pos rfl]
          try dsimp only
          by_cases hskip : (["no", "none", "n"] : List String).contains (pyLower body)
          · rw [if_pos hskip]
            exact finalize_question_qbd _ _ _ _ _ _ _ h
          · rw [if_neg hskip]
            by_cases hpre : pyStartsWith (pyLower body) "http://" || pyStartsWith (pyLower body) "https://"
            · rw [if_pos hpre]
              cases hd : st.user_data msg.from_user.id with
              | none => exact h
              | some d =>
                try dsimp only
                apply finalize_question_qbd
                refine qbd_upd_data st msg.from_user.id _ h ?_ ?_
                · intro hcon
                  rw [hs] at hcon
                  exact absurd (Option.some.inj hcon) (by decide)
                · intro hcon
                  obtain ⟨d0, hd0, hq, hdd⟩ := (h msg.from_user.id).2 hcon
                  rw [hd] at hd0
                  obtain rfl := Option.some.inj hd0
                  exact ⟨hq, hdd⟩
            · rw [if_neg hpre]
              cases hd : st.user_data msg.from_user.id with
              | none => exact h
              | some d =>
                try dsimp only
                apply finalize_question_qbd
                refine qbd_upd_data st msg.from_user.id _ h ?_ ?_
                · intro hcon
                  rw [hs] at hcon
                  exact absurd (Option.some.inj hcon) (by decide)
                · intro hcon
                  obtain ⟨d0, hd0, hq, hdd⟩ := (h msg.from_user.id).2 hcon
                  rw [hd] at hd0
                  obtain rfl := Option.some.inj hd0
                  exact ⟨hq, hdd⟩
        · rw [if_neg h1, if_neg h2, if_neg h3]
          exact h

theorem handle_photo_qbd (env : Transport) (admin : Nat) (st : Store)
    (msg : Msg) (fid : String) (h : QuestionBeforeDescription st) :
    QuestionBeforeDescription (handle_photo env admin st msg fid).store := by
  unfold handle_photo
  dsimp only
  cases hs : st.user_states msg.from_user.id with
  | none => exact h
  | some s =>
    dsimp only
    by_cases h3 : s = STATE_IMAGE
    · subst h3
      rw [if_pos rfl]
      cases hd : st.user_data msg.from_user.id with
      | none => exact h
      | some d =>
        try dsimp only
        apply finalize_question_qbd
        refine qbd_upd_data st msg.from_user.id _ h ?_ ?_
        · intro hcon
          rw [hs] at hcon
          exact absurd (Option.some.inj hcon) (by decide)
        · intro hcon
          obtain ⟨d0, hd0, hq, hdd⟩ := (h msg.from_user.id).2 hcon
          rw [hd] at hd0
          obtain rfl := Option.some.inj hd0
          exact ⟨hq, hdd⟩
    · rw [if_neg h3]
      exact h

theorem step_qbd (env : Transport) (admin : Nat) (st : Store) (msg : Msg)
    (e : Event) (h : QuestionBeforeDescription st) :
    QuestionBeforeDescription (step env admin st msg e).store := by
  cases e with
  | cmdStart => exact h
  | cmdHelp => exact h
  | cmdSendspark =>
    refine qbd_upd_both st msg.from_user.id STATE_QUESTION emptyData h ?_ ?_
    · intro hcon
      exact absurd hcon (by decide)
    · intro hcon
      exact absurd hcon (by decide)
  | cmdCancel => exact qbd_clear st msg.from_user.id h
  | textMsg body => exact handle_messages_qbd env admin st msg body h
  | photoMsg fid => exact handle_photo_qbd env admin st msg fid h

theorem step_sync_all (env : Transport) (admin : Nat) (st : Store) (msg : Msg)
    (e : Event) (h : SyncInv st) : SyncInv (step env admin st msg e).store := by
  cases e with
  | cmdStart => exact h
  | cmdHelp => exact h
  | cmdSendspark => exact sync_upd_both st msg.from_user.id STATE_QUESTION emptyData h
  | cmdCancel => exact sync_clear st msg.from_user.id h
  | textMsg body => exact handle_messages_sync env admin st msg body h
  | photoMsg fid => exact handle_photo_sync env admin st msg fid h

theorem qbd_init : QuestionBeforeDescription initStore := by
  intro u
  constructor <;> intro hcon <;> exact absurd hcon (by simp [initStore])

/-- `Reachable` holds for the demo store obtained by `/sendspark`, `"q"`,
`"d"` from user 5. -/
theorem demoReach : Reachable demoStore3 :=
  ((Reachable.init.next envAll 0 msg5 .cmdSendspark).next envAll 0 msg5
    (.textMsg "q")).next envAll 0 msg5 (.textMsg "d")

/-! ## Claim theorems -/

/-- C1 counterexample: in the photo-reference branch a failing `send_photo`
raises past `finalize_question` before steps 3 and 4: the confirmation is not
sent (no send was dispatched at all) and the session entry survives, refuting
the claim that confirmation and cleanup happen for every finalize invocation
even when the step-2 dispatch fails. -/
theorem photo_send_failure_skips_confirm_and_cleanup_cex :
    envPhotoRefFail.sendPhotoRefOk = false ∧
    (finalize_question envPhotoRefFail 0 stPhoto msg5 5 true false).ok = false ∧
    (finalize_question envPhotoRefFail 0 stPhoto msg5 5 true false).store.user_states 5 =
      some STATE_IMAGE ∧
    (finalize_question envPhotoRefFail 0 stPhoto msg5 5 true false).sends = [] :=
  ⟨rfl, rfl, rfl, rfl⟩

/-- C1 (amended): whenever `finalize_question` completes without an exception
escaping (in particular whenever all outbound sends used succeed, and also in
the URL branch when the guarded fetch fails but the fallback text send
succeeds), the user confirmation was dispatched and both session entries of
the user were removed; an unguarded dispatch failure such as a failing
`send_photo` in the photo-reference branch instead aborts before steps 3
and 4. -/
theorem finalize_ok_implies_confirm_and_cleanup (env : Transport) (admin : Nat)
    (st : Store) (msg : Msg) (user_id : Nat) (hi hai : Bool)
    (h : (finalize_question env admin st msg user_id hi hai).ok = true) :
    Send.text msg.chatId finalizeConfirmText ∈
      (finalize_question env admin st msg user_id hi hai).sends ∧
    (finalize_question env admin st msg user_id hi hai).store.user_states user_id = none ∧
    (finalize_question env admin st msg user_id hi hai).store.user_data user_id = none := by
  rcases finalize_question_cases env admin st msg user_id hi hai with ⟨h1, _⟩ | ⟨sent, hC⟩
  · rw [h] at h1
    exact Bool.noConfusion h1
  · rw [hC]
    refine ⟨?_, ?_, ?_⟩
    · simp
    · simp [clearUser]
    · simp [clearUser]

/-- Witness for C1's theorem at a URL-branch invocation whose fetch raises:
finalize still completes, confirms and cleans up. -/
theorem finalize_ok_implies_confirm_and_cleanup_witness :
    (finalize_question envFetchFail 0 stUrl msg5 5 true false).ok = true ∧
    (Send.text msg5.chatId finalizeConfirmText ∈
        (finalize_question envFetchFail 0 stUrl msg5 5 true false).sends ∧
      (finalize_question envFetchFail 0 stUrl msg5 5 true false).store.user_states 5 = none ∧
      (finalize_question envFetchFail 0 stUrl msg5 5 true false).store.user_data 5 = none) :=
  ⟨by decide,
   finalize_ok_implies_confirm_and_cleanup envFetchFail 0 stUrl msg5 5 true false (by decide)⟩

/-- C2 counterexample: the fetch of the stored URL raises, and the fallback
`send_message` inside the `except` handler raises as well: no admin text is
dispatched and the exception escapes the handler, refuting the claim that on
every fetch failure a text notification is dispatched and nothing is raised
past the handler boundary. -/
theorem url_fallback_send_failure_raises_cex :
    envFetchAndFallbackFail.fetch = none ∧
    (finalize_question envFetchAndFallbackFail 0 stUrl msg5 5 true false).ok = false ∧
    (finalize_question envFetchAndFallbackFail 0 stUrl msg5 5 true false).sends = [] :=
  ⟨rfl, rfl, rfl⟩

/-- C2 (amended): when the session holds an image URL, the fetch raises or
returns a non-200 status, and the admin text sends and the user confirmation
send themselves succeed, then finalize dispatches exactly a text-only admin
notification whose body contains the literal URL string, followed by the user
confirmation, and no exception escapes the handler. -/
theorem url_fetch_failure_sends_text_with_url (env : Transport) (admin : Nat)
    (st : Store) (msg : Msg) (user_id : Nat) (hi hai : Bool) (d : UserData) (url : String)
    (hd : st.user_data user_id = some d)
    (hid : d.image_id = none)
    (hurl : d.image_url = some url)
    (hfetch : env.fetch = none ∨ ∃ c, env.fetch = some c ∧ ¬ c = 200)
    (hA : env.sendTextAdminOk = true)
    (hA2 : env.sendTextAdmin2Ok = true)
    (hU : env.sendTextUserOk = true) :
    (finalize_question env admin st msg user_id hi hai).ok = true ∧
    ∃ m, (finalize_question env admin st msg user_id hi hai).sends =
        [Send.text admin m, Send.text msg.chatId finalizeConfirmText] ∧
      ∃ pre, m = pre ++ url := by
  unfold finalize_question confirmAndCleanup
  simp only [hd, hid, hurl]
  rcases hfetch with hf | ⟨c, hf, hc⟩
  · simp only [hf, hA2, hU, if_true]
    exact ⟨by trivial, _, rfl, _, rfl⟩
  · simp only [hf]
    rw [if_neg hc]
    simp only [hA, hU, if_true]
    exact ⟨by trivial, _, rfl, _, rfl⟩

/-- Witness for C2's theorem: concrete URL-holding session, raising fetch,
succeeding sends. -/
theorem url_fetch_failure_sends_text_with_url_witness :
    stUrl.user_data 5 = some dataUrl ∧
    dataUrl.image_id = none ∧
    dataUrl.image_url = some "http://x" ∧
    envFetchFail.fetch = none ∧
    ((finalize_question envFetchFail 0 stUrl msg5 5 true false).ok = true ∧
      ∃ m, (finalize_question envFetchFail 0 stUrl msg5 5 true false).sends =
          [Send.text 0 m, Send.text msg5.chatId finalizeConfirmText] ∧
        ∃ pre, m = pre ++ "http://x") :=
  ⟨rfl, rfl, rfl, rfl,
   url_fetch_failure_sends_text_with_url envFetchFail 0 stUrl msg5 5 true false dataUrl
     "http://x" rfl rfl rfl (Or.inl rfl) rfl rfl rfl⟩

/-- C3 counterexample: the body `"HTTP://A"` does not start with the literal
prefixes `http://` or `https://` (and is not a skip keyword), so by the claim
it should be stored as `additionalInfo` and finalized without an image; the
code, which tests the lowercased body, instead takes the URL branch and
dispatches a photo to the admin. -/
theorem uppercase_scheme_goes_to_url_branch_cex :
    (pyStartsWith "HTTP://A" "http://" || pyStartsWith "HTTP://A" "https://") = false ∧
    (["no", "none", "n"] : List String).contains (pyLower "HTTP://A") = false ∧
    (handle_messages envAll 0 stQD msg5 "HTTP://A").sends.map isPhotoSend = [true, false] :=
  ⟨by decide, by decide, by decide⟩

/-- C3 (amended): in `STATE_IMAGE`, a non-skip text is classified by the
literal prefix of its LOWERCASED body: if the lowercased body starts with
`http://` or `https://` the original body is stored as `image_url` and the
submission finalized as a url-image submission, otherwise the body is stored
as `additional_info` and finalized with extra text and no image. -/
theorem awaiting_image_lowercased_classification (env : Transport) (admin : Nat)
    (st : Store) (msg : Msg) (body : String) (d : UserData)
    (hstate : st.user_states msg.from_user.id = some STATE_IMAGE)
    (hdata : st.user_data msg.from_user.id = some d)
    (hskip : (["no", "none", "n"] : List String).contains (pyLower body) = false) :
    ((pyStartsWith (pyLower body) "http://" || pyStartsWith (pyLower body) "https://") = true →
      handle_messages env admin st msg body =
        finalize_question env admin
          ⟨st.user_states, upd st.user_data msg.from_user.id (some { d with image_url := some body })⟩
          msg msg.from_user.id true false) ∧
    ((pyStartsWith (pyLower body) "http://" || pyStartsWith (pyLower body) "https://") = false →
      handle_messages env admin st msg body =
        finalize_question env admin
          ⟨st.user_states, upd st.user_data msg.from_user.id (some { d with additional_info := some body })⟩
          msg msg.from_user.id false true) := by
  constructor <;> intro hp
  · unfold handle_messages
    dsimp only
    simp only [hstate]
    rw [if_pos trivial,
        hskip, if_neg (show ¬ false = true by decide),
        hp, if_pos (show true = true from rfl)]
    simp only [hdata]
    rw [if_neg (show ¬ STATE_IMAGE = STATE_QUESTION by decide),
        if_neg (show ¬ STATE_IMAGE = STATE_DESCRIPTION by decide)]
  · unfold handle_messages
    dsimp only
    simp only [hstate]
    rw [if_pos trivial,
        hskip, if_neg (show ¬ false = true by decide),
        hp, if_neg (show ¬ false = true by decide)]
    simp only [hdata]
    rw [if_neg (show ¬ STATE_IMAGE = STATE_QUESTION by decide),
        if_neg (show ¬ STATE_IMAGE = STATE_DESCRIPTION by decide)]

/-- Witness for C3's theorem: lowercase URL body goes to the url branch,
plain text body goes to the extra-text branch. -/
theorem awaiting_image_lowercased_classification_witness :
    stQD.user_states 5 = some STATE_IMAGE ∧
    (["no", "none", "n"] : List String).contains (pyLower "hello") = false ∧
    (pyStartsWith (pyLower "hello") "http://" || pyStartsWith (pyLower "hello") "https://") = false ∧
    handle_messages envAll 0 stQD msg5 "hello" =
      finalize_question envAll 0
        ⟨stQD.user_states, upd stQD.user_data 5 (some { dataQD with additional_info := some "hello" })⟩
        msg5 5 false true :=
  ⟨rfl, by decide, by decide,
   (awaiting_image_lowercased_classification envAll 0 stQD msg5 "hello" dataQD rfl rfl
     (by decide)).2 (by decide)⟩

/-- C4 counterexample: a photo from a user with NO session yields the
"use /sendspark first" prompt, which is a different string from the
"not expecting an image" corrective prompt the claim requires. -/
theorem photo_no_session_prompt_differs_cex :
    (handle_photo envAll 0 initStore msg5 "F").sends = [Send.text 7 photoNoSessionText] ∧
    ¬ photoNoSessionText = notExpectingText ∧
    (handle_photo envAll 0 initStore msg5 "F").store.user_states 5 = none :=
  ⟨rfl, by decide, rfl⟩

/-- C4 (amended): a photo received while an existing session is in a state
other than `STATE_IMAGE` yields the "not expecting an image" prompt with the
store unchanged; a photo received with no session yields the "use /sendspark
first" prompt, also with the store unchanged (no session created). -/
theorem photo_wrong_state_replies (env : Transport) (admin : Nat) (st : Store)
    (msg : Msg) (fid : String) (hU : env.sendTextUserOk = true) :
    (∀ s, st.user_states msg.from_user.id = some s → ¬ s = STATE_IMAGE →
      handle_photo env admin st msg fid =
        ⟨[Send.text msg.chatId notExpectingText], st, true⟩) ∧
    (st.user_states msg.from_user.id = none →
      handle_photo env admin st msg fid =
        ⟨[Send.text msg.chatId photoNoSessionText], st, true⟩) := by
  constructor
  · intro s hs hne
    unfold handle_photo
    simp [hs, hne, hU]
  · intro hs
    unfold handle_photo
    simp [hs, hU]

/-- Witness for C4's theorem: user 5 in `STATE_QUESTION` sends a photo. -/
theorem photo_wrong_state_replies_witness :
    envAll.sendTextUserOk = true ∧
    stQ.user_states 5 = some STATE_QUESTION ∧
    ¬ STATE_QUESTION = STATE_IMAGE ∧
    handle_photo envAll 0 stQ msg5 "F" =
      ⟨[Send.text 7 notExpectingText], stQ, true⟩ :=
  ⟨rfl, rfl, by decide,
   (photo_wrong_state_replies envAll 0 stQ msg5 "F" rfl).1 STATE_QUESTION rfl (by decide)⟩

/-- C5 (confirmed): `/sendspark` always leaves the user with a session in
`STATE_QUESTION` whose collected-field dict is empty, discarding any prior
fields. -/
theorem sendspark_resets_session (env : Transport) (st : Store) (msg : Msg) :
    (send_spark env st msg).store.user_states msg.from_user.id = some STATE_QUESTION ∧
    (send_spark env st msg).store.user_data msg.from_user.id = some emptyData := by
  constructor <;> simp [send_spark]

/-- C6 (confirmed): in `STATE_IMAGE`, a body whose lowercasing is one of
`no`, `none`, `n` routes to the no-image finalize branch: the handler result
is exactly `finalize_question` on the UNCHANGED store with both
`has_image = false` and `has_additional_info = false`, so neither an image
reference nor additional info is stored. -/
theorem awaiting_image_skip_keywords_finalize (env : Transport) (admin : Nat)
    (st : Store) (msg : Msg) (body : String)
    (hstate : st.user_states msg.from_user.id = some STATE_IMAGE)
    (hskip : (["no", "none", "n"] : List String).contains (pyLower body) = true) :
    handle_messages env admin st msg body =
      finalize_question env admin st msg msg.from_user.id false false := by
  unfold handle_messages
  dsimp only
  simp only [hstate]
  rw [if_pos trivial, hskip, if_pos (show true = true from rfl),
      if_neg (show ¬ STATE_IMAGE = STATE_QUESTION by decide),
      if_neg (show ¬ STATE_IMAGE = STATE_DESCRIPTION by decide)]

/-- Witness for C6's theorem at the uppercase input `"NO"`. -/
theorem awaiting_image_skip_keywords_finalize_witness :
    stQD.user_states 5 = some STATE_IMAGE ∧
    (["no", "none", "n"] : List String).contains (pyLower "NO") = true ∧
    handle_messages envAll 0 stQD msg5 "NO" =
      finalize_question envAll 0 stQD msg5 5 false false :=
  ⟨rfl, by decide,
   awaiting_image_skip_keywords_finalize envAll 0 stQD msg5 "NO" rfl (by decide)⟩

/-- C7 (confirmed): on every reachable store, a user in `STATE_DESCRIPTION`
already has the question stored, and a user in `STATE_IMAGE` has both the
question and the description stored — so the question is set before the
description, which is set before image resolution. -/
theorem reachable_awaiting_image_has_fields (st : Store) (h : Reachable st) :
    QuestionBeforeDescription st := by
  induction h with
  | init => exact qbd_init
  | next a env admin msg e ih => exact step_qbd env admin _ msg e ih

/-- Witness for C7's theorem on the concrete reachable store `demoStore3`. -/
theorem reachable_awaiting_image_has_fields_witness :
    demoStore3.user_states 5 = some STATE_IMAGE ∧
    ∃ d, demoStore3.user_data 5 = some d ∧
      d.question.isSome = true ∧ d.description.isSome = true :=
  ⟨by decide,
   (reachable_awaiting_image_has_fields demoStore3 demoReach 5).2 (by decide)⟩

/-- C8 (confirmed): with no session, a plain text event and a photo event
both leave the store untouched (the user's entry stays absent) and, when the
reply send succeeds, dispatch exactly the matching "use /sendspark"
prompt. -/
theorem no_session_prompts_and_no_store_change (env : Transport) (admin : Nat)
    (st : Store) (msg : Msg) (body fid : String)
    (h : st.user_states msg.from_user.id = none) :
    (handle_messages env admin st msg body).store = st ∧
    (handle_photo env admin st msg fid).store = st ∧
    (handle_messages env admin st msg body).store.user_states msg.from_user.id = none ∧
    (handle_photo env admin st msg fid).store.user_states msg.from_user.id = none ∧
    (env.sendTextUserOk = true →
      (handle_messages env admin st msg body).sends = [Send.text msg.chatId noSessionText] ∧
      (handle_photo env admin st msg fid).sends = [Send.text msg.chatId photoNoSessionText]) := by
  have hm : handle_messages env admin st msg body =
      ⟨if env.sendTextUserOk then [Send.text msg.chatId noSessionText] else [],
       st, env.sendTextUserOk⟩ := by
    unfold handle_messages
    simp [h]
  have hp : handle_photo env admin st msg fid =
      ⟨if env.sendTextUserOk then [Send.text msg.chatId photoNoSessionText] else [],
       st, env.sendTextUserOk⟩ := by
    unfold handle_photo
    simp [h]
  rw [hm, hp]
  refine ⟨rfl, rfl, h, h, ?_⟩
  intro hU
  rw [hU]
  exact ⟨rfl, rfl⟩

/-- Witness for C8's theorem on the empty store. -/
theorem no_session_prompts_and_no_store_change_witness :
    initStore.user_states 5 = none ∧
    ((handle_messages envAll 0 initStore msg5 "x").store = initStore ∧
      (handle_photo envAll 0 initStore msg5 "F").store = initStore ∧
      (handle_messages envAll 0 initStore msg5 "x").store.user_states 5 = none ∧
      (handle_photo envAll 0 initStore msg5 "F").store.user_states 5 = none ∧
      (envAll.sendTextUserOk = true →
        (handle_messages envAll 0 initStore msg5 "x").sends = [Send.text 7 noSessionText] ∧
        (handle_photo envAll 0 initStore msg5 "F").sends = [Send.text 7 photoNoSessionText])) :=
  ⟨rfl, no_session_prompts_and_no_store_change envAll 0 initStore msg5 "x" "F" rfl⟩

/-- C9 (confirmed): the `/start` and `/help` handlers return the store they
were given — no session is created, modified or removed for any user. -/
theorem start_help_preserve_store (env : Transport) (st : Store) (msg : Msg) :
    (start env st msg).store = st ∧ (help_command env st msg).store = st :=
  ⟨rfl, rfl⟩

/-- C10 (confirmed): every handler — all six dispatched events, and
`finalize_question` itself — preserves the invariant that the key sets of
`user_states` and `user_data` coincide. -/
theorem handlers_preserve_key_sync (env : Transport) (admin : Nat) (st : Store)
    (msg : Msg) (user_id : Nat) (hi hai : Bool) (h : SyncInv st) :
    (∀ e, SyncInv (step env admin st msg e).store) ∧
    SyncInv (finalize_question env admin st msg user_id hi hai).store := by
  constructor
  · intro e
    exact step_sync_all env admin st msg e h
  · exact finalize_question_sync env admin st msg user_id hi hai h

/-- Witness for C10's theorem on the empty store. -/
theorem handlers_preserve_key_sync_witness :
    SyncInv initStore ∧
    ((∀ e, SyncInv (step envAll 0 initStore msg5 e).store) ∧
      SyncInv (finalize_question envAll 0 initStore msg5 5 true false).store) :=
  ⟨fun _ => rfl,
   handlers_preserve_key_sync envAll 0 initStore msg5 5 true false (fun _ => rfl)⟩

end SparksBot
